import Mathlib

/-!
# Marsaglia's Universal RNG (unirand crate): shallow embedding

Embedding of `src/lib.rs` (`MarsagliaUniRng` with methods `new`, `uni`,
`rstart`, `rinit`).

## Numeric representation

The Rust code computes in IEEE-754 single precision (`f32`).  Every float
value that can arise in this program is an integer multiple of `2 ^ (-24)`
whose absolute value is at most `1`:

* `rstart` fills each buffer slot with a sum of distinct weights
  `2 ^ (-1), …, 2 ^ (-24)` (each `t *= 0.5` step and each `s += t` step is
  exact: the partial sums are multiples of `2 ^ (-24)` below `1`), and sets
  the corrections to `362436 / 2^24`, `7654321 / 2^24`, `16777213 / 2^24`
  (quotients of integers below `2^24` by `2^24`, exact in `f32`);
* `uni` only ever subtracts two such values (result a multiple of
  `2 ^ (-24)` with absolute value below `1`, hence exactly representable,
  and IEEE rounding of an exactly representable result is exact) or adds
  `1.0` to a negative such value (same argument).

Hence `f32` arithmetic is *exact* throughout, and the program is faithfully
embedded by integer numerators scaled by `2 ^ 24`: a model value `v : Int`
stands for the float `v / 2 ^ 24`.  Comparisons with `0.0` map to
comparisons with `0`, `+ 1.0` maps to `+ 16777216`.

The `i32` arithmetic of `rstart`/`rinit` is embedded as `Int` with
truncated division `Int.tdiv` / remainder `Int.tmod` (the semantics of
Rust's `/` and `%` on `i32`); no intermediate value can overflow `i32`
(all operands stay far below `2 ^ 31`), so `Int` is faithful.

The buffer `[f32; 98]` is a `List Int` of length 98; reads are `getD _ 0`
and the write is `List.set` (the cursors are proved to stay below 98 on
every reachable state, so the out-of-bounds defaults are never exercised).
`rinit`, which in Rust panics on a bad seed before touching any state,
returns the pair of the resulting visible state and an optional panic
message (`none` = normal return); on the panic paths the state component
is the receiver as it stood at the panic point.
-/

set_option maxRecDepth 100000

def LEN_U : Nat := 98

structure MarsagliaUniRng where
  uni_u : List Int
  uni_c : Int
  uni_cd : Int
  uni_cm : Int
  uni_ui : Nat
  uni_uj : Nat
  deriving DecidableEq, Repr

/-- `MarsagliaUniRng::new`: the all-zero state. -/
def MarsagliaUniRng.new : MarsagliaUniRng :=
  { uni_u := List.replicate LEN_U 0
    uni_c := 0
    uni_cd := 0
    uni_cm := 0
    uni_ui := 0
    uni_uj := 0 }

/-- `MarsagliaUniRng::uni`: one generation step.  Returns the produced
value (numerator over `2 ^ 24`) together with the successor state. -/
def MarsagliaUniRng.uni (g : MarsagliaUniRng) : Int × MarsagliaUniRng :=
  let luni0 := g.uni_u.getD g.uni_ui 0 - g.uni_u.getD g.uni_uj 0
  let luni1 := if luni0 < 0 then luni0 + 16777216 else luni0
  let u2 := g.uni_u.set g.uni_ui luni1
  let ui2 := if g.uni_ui = 0 then 97 else g.uni_ui - 1
  let uj2 := if g.uni_uj = 0 then 97 else g.uni_uj - 1
  let c1 := g.uni_c - g.uni_cd
  let c2 := if c1 < 0 then c1 + g.uni_cm else c1
  let luni2 := luni1 - c2
  let luni3 := if luni2 < 0 then luni2 + 16777216 else luni2
  (luni3,
    { uni_u := u2
      uni_c := c2
      uni_cd := g.uni_cd
      uni_cm := g.uni_cm
      uni_ui := ui2
      uni_uj := uj2 })

/-- The 24-round inner loop of `rstart` for one slot, recursing on the
number of rounds still to run.  `t` is the numerator (over `2 ^ 24`) of the
current weight (`2 ^ 23` at the first round, halved each round); the state
is the tuple `(i, j, k, l)`.  Returns the accumulated slot numerator `s`
and the final `(i, j, k, l)`. -/
def rstartRounds : Nat → Nat → Int × Int × Int × Int → Int × (Int × Int × Int × Int)
  | 0, _, st => (0, st)
  | n + 1, t, (i, j, k, l) =>
    let m := Int.tmod (Int.tmod (i * j) 179 * k) 179
    let l2 := Int.tmod (53 * l + 1) 169
    let r := rstartRounds n (t / 2) (j, k, m, l2)
    (r.1 + (if 32 ≤ Int.tmod (l2 * m) 64 then (t : Int) else 0), r.2)

/-- The outer loop of `rstart`: fill `n` slots starting at index `ii`
(the Rust loop is `for ii in 1..=97`).  Returns the filled buffer together
with the final `(i, j, k, l)` loop state (the latter is dropped by
`rstart`, as the Rust locals are; it is carried so the loop can be
reasoned about compositionally). -/
def rstartLoop : Nat → Nat → Int × Int × Int × Int → List Int →
    List Int × (Int × Int × Int × Int)
  | 0, _, st, u => (u, st)
  | n + 1, ii, st, u =>
    let r := rstartRounds 24 (2 ^ 23) st
    rstartLoop n (ii + 1) r.2 (u.set ii r.1)

/-- `MarsagliaUniRng::rstart`: fill slots `1..=97` from the four sub-seeds
and reset the corrections and the two cursors. -/
def MarsagliaUniRng.rstart (g : MarsagliaUniRng) (i j k l : Int) : MarsagliaUniRng :=
  { uni_u := (rstartLoop 97 1 (i, j, k, l) g.uni_u).1
    uni_c := 362436
    uni_cd := 7654321
    uni_cm := 16777213
    uni_ui := 97
    uni_uj := 33 }

/-- The seed decomposition performed by `rinit`. -/
def decompose (ijkl : Int) : Int × Int × Int × Int :=
  let ij := Int.tdiv ijkl 30082
  let kl := ijkl - 30082 * ij
  (Int.tmod (Int.tdiv ij 177) 177 + 2,
   Int.tmod ij 177 + 2,
   Int.tmod (Int.tdiv kl 169) 178 + 1,
   Int.tmod kl 169)

/-- `MarsagliaUniRng::rinit`: validate and decompose the seed, then call
`rstart`.  The `Option String` component is the panic message (`none` on
normal return); the state component is the visible state when the call
ends (unchanged on every panic path, since all checks precede `rstart`). -/
def MarsagliaUniRng.rinit (g : MarsagliaUniRng) (ijkl : Int) : MarsagliaUniRng × Option String :=
  if ijkl < 0 ∨ 900000000 < ijkl then
    (g, some ("rinit: ijkl = " ++ toString ijkl ++ " -- out of range"))
  else
    let i := (decompose ijkl).1
    let j := (decompose ijkl).2.1
    let k := (decompose ijkl).2.2.1
    let l := (decompose ijkl).2.2.2
    if i < 1 ∨ 178 < i then
      (g, some ("rinit: i = " ++ toString i ++ " -- out of range"))
    else if j < 2 ∨ 178 < j then
      (g, some ("rinit: j = " ++ toString j ++ " -- out of range"))
    else if k < 1 ∨ 178 < k then
      (g, some ("rinit: k = " ++ toString k ++ " -- out of range"))
    else if l < 0 ∨ 168 < l then
      (g, some ("rinit: l = " ++ toString l ++ " -- out of range"))
    else if i = 1 ∧ j = 1 ∧ k = 1 then
      (g, some "rinit: 1 1 1 not allowed for 1st 3 seeds")
    else
      (g.rstart i j k l, none)

/-- The state after `n` further calls to `uni`. -/
def uniIter (g : MarsagliaUniRng) : Nat → MarsagliaUniRng
  | 0 => g
  | n + 1 => ((uniIter g n).uni).2

/-- The value returned by the `(n+1)`-st call to `uni` after state `g`. -/
def uniVal (g : MarsagliaUniRng) (n : Nat) : Int :=
  ((uniIter g n).uni).1

/-- The generator seeded with 170 (the crate's known-answer test seed). -/
def g170 : MarsagliaUniRng := (MarsagliaUniRng.new.rinit 170).1

/-- Invariant satisfied by every state reachable after a successful
`rinit` on a fresh generator, and preserved by `uni`. -/
def ReachInv (g : MarsagliaUniRng) : Prop :=
  g.uni_u.length = LEN_U ∧
  (∀ x ∈ g.uni_u, 0 ≤ x ∧ x < 16777216) ∧
  0 ≤ g.uni_c ∧ g.uni_c < 16777216 ∧
  g.uni_cd = 7654321 ∧ g.uni_cm = 16777213 ∧
  g.uni_ui ≤ 97 ∧ g.uni_uj ≤ 97 ∧ g.uni_ui ≠ g.uni_uj

/-!
## Concrete evaluation snapshots

Evaluating the generator concretely (for the known-answer claim and the
counterexamples) forces about `97 × 24` arithmetic steps whose lazy
unfolding is too deep for one reduction; the following definitions record
intermediate states so the evaluation can be staged into bounded-depth
chunks, each checked by `decide` and glued with `rstartLoop_add` /
`uniIter_add`.
-/

/-- Buffer snapshot after the first 16 slots of `rstart 2 2 2 1` on a fresh generator (used to stage concrete evaluation). -/

def rsBuf1 : List Int :=
  [0, 15145663, 3381452, 8071914, 8866467, 15255546, 12497191, 16413804, 12977765, 10373227, 12218732, 6143398, 15028556, 2936871, 2596270, 2065577, 967017, 0, 0, 0, 0, 0, 0, 0, 0, 0, 0, 0, 0, 0, 0, 0, 0, 0, 0, 0, 0, 0, 0, 0, 0, 0, 0, 0, 0, 0, 0, 0, 0, 0, 0, 0, 0, 0, 0, 0, 0, 0, 0, 0, 0, 0, 0, 0, 0, 0, 0, 0, 0, 0, 0, 0, 0, 0, 0, 0, 0, 0, 0, 0, 0, 0, 0, 0, 0, 0, 0, 0, 0, 0, 0, 0, 0, 0, 0, 0, 0, 0]

/-- Loop-state snapshot matching the buffer above. -/

def rsSt1 : Int × Int × Int × Int := (58, (143, (150, 151)))

/-- Buffer snapshot after the first 32 slots of `rstart 2 2 2 1` on a fresh generator (used to stage concrete evaluation). -/

def rsBuf2 : List Int :=
  [0, 15145663, 3381452, 8071914, 8866467, 15255546, 12497191, 16413804, 12977765, 10373227, 12218732, 6143398, 15028556, 2936871, 2596270, 2065577, 967017, 15249735, 6402959, 2770115, 5638587, 8269118, 9145188, 4059411, 6900846, 10534291, 16384510, 4637580, 14003453, 305177, 4322207, 2256791, 9696257, 0, 0, 0, 0, 0, 0, 0, 0, 0, 0, 0, 0, 0, 0, 0, 0, 0, 0, 0, 0, 0, 0, 0, 0, 0, 0, 0, 0, 0, 0, 0, 0, 0, 0, 0, 0, 0, 0, 0, 0, 0, 0, 0, 0, 0, 0, 0, 0, 0, 0, 0, 0, 0, 0, 0, 0, 0, 0, 0, 0, 0, 0, 0, 0, 0]

/-- Loop-state snapshot matching the buffer above. -/

def rsSt2 : Int × Int × Int × Int := (34, (99, (150, 145)))

/-- Buffer snapshot after the first 48 slots of `rstart 2 2 2 1` on a fresh generator (used to stage concrete evaluation). -/

def rsBuf3 : List Int :=
  [0, 15145663, 3381452, 8071914, 8866467, 15255546, 12497191, 16413804, 12977765, 10373227, 12218732, 6143398, 15028556, 2936871, 2596270, 2065577, 967017, 15249735, 6402959, 2770115, 5638587, 8269118, 9145188, 4059411, 6900846, 10534291, 16384510, 4637580, 14003453, 305177, 4322207, 2256791, 9696257, 10301657, 2799828, 546818, 9306628, 10914572, 15384895, 9257317, 11179330, 9709606, 5438611, 11840335, 12362825, 12464832, 3610351, 1822809, 6907591, 0, 0, 0, 0, 0, 0, 0, 0, 0, 0, 0, 0, 0, 0, 0, 0, 0, 0, 0, 0, 0, 0, 0, 0, 0, 0, 0, 0, 0, 0, 0, 0, 0, 0, 0, 0, 0, 0, 0, 0, 0, 0, 0, 0, 0, 0, 0, 0, 0]

/-- Loop-state snapshot matching the buffer above. -/

def rsSt3 : Int × Int × Int × Int := (90, (62, (119, 152)))

/-- Buffer snapshot after the first 64 slots of `rstart 2 2 2 1` on a fresh generator (used to stage concrete evaluation). -/

def rsBuf4 : List Int :=
  [0, 15145663, 3381452, 8071914, 8866467, 15255546, 12497191, 16413804, 12977765, 10373227, 12218732, 6143398, 15028556, 2936871, 2596270, 2065577, 967017, 15249735, 6402959, 2770115, 5638587, 8269118, 9145188, 4059411, 6900846, 10534291, 16384510, 4637580, 14003453, 305177, 4322207, 2256791, 9696257, 10301657, 2799828, 546818, 9306628, 10914572, 15384895, 9257317, 11179330, 9709606, 5438611, 11840335, 12362825, 12464832, 3610351, 1822809, 6907591, 1367214, 7928213, 14267309, 1651606, 7383151, 1322746, 13655684, 5158469, 8663762, 12581675, 11930340, 8374989, 16746759, 14496569, 5078415, 7740111, 0, 0, 0, 0, 0, 0, 0, 0, 0, 0, 0, 0, 0, 0, 0, 0, 0, 0, 0, 0, 0, 0, 0, 0, 0, 0, 0, 0, 0, 0, 0, 0, 0]

/-- Loop-state snapshot matching the buffer above. -/

def rsSt4 : Int × Int × Int × Int := (154, (119, (167, 3)))

/-- Buffer snapshot after the first 80 slots of `rstart 2 2 2 1` on a fresh generator (used to stage concrete evaluation). -/

def rsBuf5 : List Int :=
  [0, 15145663, 3381452, 8071914, 8866467, 15255546, 12497191, 16413804, 12977765, 10373227, 12218732, 6143398, 15028556, 2936871, 2596270, 2065577, 967017, 15249735, 6402959, 2770115, 5638587, 8269118, 9145188, 4059411, 6900846, 10534291, 16384510, 4637580, 14003453, 305177, 4322207, 2256791, 9696257, 10301657, 2799828, 546818, 9306628, 10914572, 15384895, 9257317, 11179330, 9709606, 5438611, 11840335, 12362825, 12464832, 3610351, 1822809, 6907591, 1367214, 7928213, 14267309, 1651606, 7383151, 1322746, 13655684, 5158469, 8663762, 12581675, 11930340, 8374989, 16746759, 14496569, 5078415, 7740111, 11800411, 16095177, 287529, 6712218, 8742613, 6679263, 2045761, 1934056, 14154107, 4507913, 1195996, 14382938, 16377368, 8292305, 15924402, 11216482, 0, 0, 0, 0, 0, 0, 0, 0, 0, 0, 0, 0, 0, 0, 0, 0, 0]

/-- Loop-state snapshot matching the buffer above. -/

def rsSt5 : Int × Int × Int × Int := (2, (10, (118, 36)))

/-- Buffer snapshot after the first 96 slots of `rstart 2 2 2 1` on a fresh generator (used to stage concrete evaluation). -/

def rsBuf6 : List Int :=
  [0, 15145663, 3381452, 8071914, 8866467, 15255546, 12497191, 16413804, 12977765, 10373227, 12218732, 6143398, 15028556, 2936871, 2596270, 2065577, 967017, 15249735, 6402959, 2770115, 5638587, 8269118, 9145188, 4059411, 6900846, 10534291, 16384510, 4637580, 14003453, 305177, 4322207, 2256791, 9696257, 10301657, 2799828, 546818, 9306628, 10914572, 15384895, 9257317, 11179330, 9709606, 5438611, 11840335, 12362825, 12464832, 3610351, 1822809, 6907591, 1367214, 7928213, 14267309, 1651606, 7383151, 1322746, 13655684, 5158469, 8663762, 12581675, 11930340, 8374989, 16746759, 14496569, 5078415, 7740111, 11800411, 16095177, 287529, 6712218, 8742613, 6679263, 2045761, 1934056, 14154107, 4507913, 1195996, 14382938, 16377368, 8292305, 15924402, 11216482, 13197360, 1592741, 231154, 9442127, 7131693, 301067, 14738518, 420532, 5147566, 3446553, 8270673, 13395312, 14965413, 9528276, 16064998, 14292811, 0]

/-- Loop-state snapshot matching the buffer above. -/

def rsSt6 : Int × Int × Int × Int := (163, (53, (35, 82)))

/-- Buffer snapshot after the first 97 slots of `rstart 2 2 2 1` on a fresh generator (used to stage concrete evaluation). -/

def g170Buf : List Int :=
  [0, 15145663, 3381452, 8071914, 8866467, 15255546, 12497191, 16413804, 12977765, 10373227, 12218732, 6143398, 15028556, 2936871, 2596270, 2065577, 967017, 15249735, 6402959, 2770115, 5638587, 8269118, 9145188, 4059411, 6900846, 10534291, 16384510, 4637580, 14003453, 305177, 4322207, 2256791, 9696257, 10301657, 2799828, 546818, 9306628, 10914572, 15384895, 9257317, 11179330, 9709606, 5438611, 11840335, 12362825, 12464832, 3610351, 1822809, 6907591, 1367214, 7928213, 14267309, 1651606, 7383151, 1322746, 13655684, 5158469, 8663762, 12581675, 11930340, 8374989, 16746759, 14496569, 5078415, 7740111, 11800411, 16095177, 287529, 6712218, 8742613, 6679263, 2045761, 1934056, 14154107, 4507913, 1195996, 14382938, 16377368, 8292305, 15924402, 11216482, 13197360, 1592741, 231154, 9442127, 7131693, 301067, 14738518, 420532, 5147566, 3446553, 8270673, 13395312, 14965413, 9528276, 16064998, 14292811, 14544666]

/-- Loop-state snapshot matching the buffer above. -/

def rsSt7 : Int × Int × Int × Int := (174, (84, (99, 15)))

/-- State snapshot after 33 `uni` calls on the generator seeded with 170. -/

def itG1 : MarsagliaUniRng :=
  { uni_u :=
      [0, 15145663, 3381452, 8071914, 8866467, 15255546, 12497191, 16413804, 12977765, 10373227, 12218732, 6143398, 15028556, 2936871, 2596270, 2065577, 967017, 15249735, 6402959, 2770115, 5638587, 8269118, 9145188, 4059411, 6900846, 10534291, 16384510, 4637580, 14003453, 305177, 4322207, 2256791, 9696257, 10301657, 2799828, 546818, 9306628, 10914572, 15384895, 9257317, 11179330, 9709606, 5438611, 11840335, 12362825, 12464832, 3610351, 1822809, 6907591, 1367214, 7928213, 14267309, 1651606, 7383151, 1322746, 13655684, 5158469, 8663762, 12581675, 11930340, 8374989, 16746759, 14496569, 5078415, 7740111, 13431964, 12713725, 8992831, 14622967, 10264283, 10959288, 2409173, 5733507, 3780880, 9066397, 11829814, 16131598, 13440497, 5696035, 13858825, 10249465, 14724841, 11966998, 14238255, 3803540, 15639791, 7933095, 10679107, 10296902, 11390491, 3839259, 3633093, 16169075, 14660236, 5206069, 13808207, 4596554, 4243009]
    uni_c := 16205251
    uni_cd := 7654321
    uni_cm := 16777213
    uni_ui := 64
    uni_uj := 0 }

/-- State snapshot after 66 `uni` calls on the generator seeded with 170. -/

def itG2 : MarsagliaUniRng :=
  { uni_u :=
      [0, 15145663, 3381452, 8071914, 8866467, 15255546, 12497191, 16413804, 12977765, 10373227, 12218732, 6143398, 15028556, 2936871, 2596270, 2065577, 967017, 15249735, 6402959, 2770115, 5638587, 8269118, 9145188, 4059411, 6900846, 10534291, 16384510, 4637580, 14003453, 305177, 4322207, 2256791, 13759748, 1308826, 4954077, 7059751, 15124556, 8505399, 9651388, 5476437, 2112933, 14657008, 6084229, 15177054, 6666790, 15383223, 10138102, 3875184, 11717809, 3906175, 4124673, 15404734, 10495727, 13481260, 7803060, 2265193, 1319210, 5030669, 13189816, 14047320, 3168920, 2938552, 9900015, 835406, 7740111, 13431964, 12713725, 8992831, 14622967, 10264283, 10959288, 2409173, 5733507, 3780880, 9066397, 11829814, 16131598, 13440497, 5696035, 13858825, 10249465, 14724841, 11966998, 14238255, 3803540, 15639791, 7933095, 10679107, 10296902, 11390491, 3839259, 3633093, 16169075, 14660236, 5206069, 13808207, 4596554, 4243009]
    uni_c := 15270853
    uni_cd := 7654321
    uni_cm := 16777213
    uni_ui := 31
    uni_uj := 65 }

/-- State snapshot after 98 `uni` calls on the generator seeded with 170. -/

def itG3 : MarsagliaUniRng :=
  { uni_u :=
      [11823139, 8085912, 5034112, 16343731, 15992295, 9779109, 10384258, 1756796, 6893536, 11973389, 5551942, 7537391, 4890454, 15838903, 7655677, 14936618, 13619560, 16622217, 12684448, 6066071, 14612743, 6003925, 7825978, 15805958, 10488246, 13264187, 13215590, 1699028, 4103438, 16246987, 13359312, 5602043, 13759748, 1308826, 4954077, 7059751, 15124556, 8505399, 9651388, 5476437, 2112933, 14657008, 6084229, 15177054, 6666790, 15383223, 10138102, 3875184, 11717809, 3906175, 4124673, 15404734, 10495727, 13481260, 7803060, 2265193, 1319210, 5030669, 13189816, 14047320, 3168920, 2938552, 9900015, 835406, 7740111, 13431964, 12713725, 8992831, 14622967, 10264283, 10959288, 2409173, 5733507, 3780880, 9066397, 11829814, 16131598, 13440497, 5696035, 13858825, 10249465, 14724841, 11966998, 14238255, 3803540, 15639791, 7933095, 10679107, 10296902, 11390491, 3839259, 3633093, 16169075, 14660236, 5206069, 13808207, 4596554, 4243009]
    uni_c := 5213563
    uni_cd := 7654321
    uni_cm := 16777213
    uni_ui := 97
    uni_uj := 33 }

/-- The fully evaluated generator state produced by `rinit 170` on a fresh
generator (proved equal to `g170` below). -/
def G170 : MarsagliaUniRng :=
  { uni_u := g170Buf
    uni_c := 362436
    uni_cd := 7654321
    uni_cm := 16777213
    uni_ui := 97
    uni_uj := 33 }

/-! ## Lemmas about the inner seeding loop -/

theorem rstartRounds_t_zero (n : Nat) (st : Int × Int × Int × Int) :
    (rstartRounds n 0 st).1 = 0 := by
  induction n generalizing st with
  | zero => rfl
  | succ n ih =>
    obtain ⟨i, j, k, l⟩ := st
    simp only [rstartRounds, Nat.zero_div, ih, Nat.cast_zero, zero_add]
    split <;> rfl

theorem rstartRounds_bounds (n t : Nat) (st : Int × Int × Int × Int) (ht : 1 ≤ t) :
    0 ≤ (rstartRounds n t st).1 ∧ (rstartRounds n t st).1 ≤ 2 * (t : Int) - 1 := by
  induction n generalizing t st with
  | zero =>
    refine ⟨le_refl 0, ?_⟩
    simp only [rstartRounds]
    omega
  | succ n ih =>
    obtain ⟨i, j, k, l⟩ := st
    simp only [rstartRounds]
    by_cases h2 : 2 ≤ t
    · have hrec := ih (t / 2) (Int.tmod 53 169, Int.tmod 53 169, 0, 0) (by omega)
      -- the recursive state does not matter for the bound; re-obtain it generically
      have hrec2 := ih (t / 2)
        (j, k, Int.tmod (Int.tmod (i * j) 179 * k) 179, Int.tmod (53 * l + 1) 169) (by omega)
      split <;> omega
    · have ht1 : t = 1 := by omega
      subst ht1
      rw [show (1 : Nat) / 2 = 0 from rfl]
      have hz := rstartRounds_t_zero n
        (j, k, Int.tmod (Int.tmod (i * j) 179 * k) 179, Int.tmod (53 * l + 1) 169)
      split <;> omega

theorem rstartLoop_length (n ii : Nat) (st : Int × Int × Int × Int) (u : List Int) :
    (rstartLoop n ii st u).1.length = u.length := by
  induction n generalizing ii st u with
  | zero => rfl
  | succ n ih => simp [rstartLoop, ih]

theorem rstartLoop_mem (n ii : Nat) (st : Int × Int × Int × Int) (u : List Int)
    (hu : ∀ x ∈ u, 0 ≤ x ∧ x < 16777216) :
    ∀ x ∈ (rstartLoop n ii st u).1, 0 ≤ x ∧ x < 16777216 := by
  induction n generalizing ii st u with
  | zero => exact hu
  | succ n ih =>
    simp only [rstartLoop]
    refine ih _ _ _ ?_
    intro x hx
    rcases List.mem_or_eq_of_mem_set hx with hmem | rfl
    · exact hu x hmem
    · have := rstartRounds_bounds 24 (2 ^ 23) st (by norm_num)
      constructor <;> omega

theorem rstartLoop_get?_low (n ii idx : Nat) (st : Int × Int × Int × Int) (u : List Int)
    (h : idx < ii) :
    (rstartLoop n ii st u).1[idx]? = u[idx]? := by
  induction n generalizing ii st u with
  | zero => rfl
  | succ n ih =>
    simp only [rstartLoop]
    rw [ih _ _ _ (by omega), List.getElem?_set_ne (by omega)]

theorem rstartLoop_congr (n ii : Nat) (st : Int × Int × Int × Int) (u v : List Int)
    (hlen : u.length = v.length)
    (hagree : ∀ idx, idx < ii ∨ ii + n ≤ idx → u[idx]? = v[idx]?) :
    rstartLoop n ii st u = rstartLoop n ii st v := by
  induction n generalizing ii st u v with
  | zero =>
    have huv : u = v := List.ext_getElem? fun idx => hagree idx (by omega)
    rw [rstartLoop, rstartLoop, huv]
  | succ n ih =>
    simp only [rstartLoop]
    refine ih _ _ _ _ (by simp [hlen]) ?_
    intro idx hidx
    rcases eq_or_ne ii idx with rfl | hne
    · rw [List.getElem?_set, List.getElem?_set]
      simp [hlen]
    · rw [List.getElem?_set_ne hne, List.getElem?_set_ne hne]
      exact hagree idx (by omega)

theorem rstartLoop_add (a b ii : Nat) (st : Int × Int × Int × Int) (u : List Int) :
    rstartLoop (a + b) ii st u =
      rstartLoop b (ii + a) (rstartLoop a ii st u).2 (rstartLoop a ii st u).1 := by
  induction a generalizing ii st u with
  | zero => simp [rstartLoop]
  | succ a ih =>
    rw [show a + 1 + b = (a + b) + 1 by omega]
    simp only [rstartLoop]
    rw [ih]
    rw [show ii + 1 + a = ii + (a + 1) by omega]

theorem uniIter_add (g : MarsagliaUniRng) (a b : Nat) :
    uniIter g (a + b) = uniIter (uniIter g a) b := by
  induction b with
  | zero => rfl
  | succ b ih =>
    show ((uniIter g (a + b)).uni).2 = ((uniIter (uniIter g a) b).uni).2
    rw [ih]

/-! ## The reachable-state invariant -/

theorem getD_bounds (u : List Int) (idx : Nat)
    (hu : ∀ x ∈ u, 0 ≤ x ∧ x < 16777216) :
    0 ≤ u.getD idx 0 ∧ u.getD idx 0 < 16777216 := by
  rw [List.getD_eq_getElem?_getD]
  cases h : u[idx]? with
  | none => simp
  | some a => simpa using hu a (List.getElem?_mem h)

theorem uni_step (g : MarsagliaUniRng) (h : ReachInv g) :
    ReachInv (g.uni).2 ∧ 0 ≤ (g.uni).1 ∧ (g.uni).1 < 16777216 := by
  obtain ⟨hlen, hmem, hc0, hc1, hcd, hcm, hui, huj, hne⟩ := h
  have hri := getD_bounds g.uni_u g.uni_ui hmem
  have hrj := getD_bounds g.uni_u g.uni_uj hmem
  simp only [MarsagliaUniRng.uni, ReachInv]
  refine ⟨⟨?_, ?_, ?_, ?_, hcd, hcm, ?_, ?_, ?_⟩, ?_, ?_⟩
  · simpa using hlen
  · intro x hx
    rcases List.mem_or_eq_of_mem_set hx with hxm | rfl
    · exact hmem x hxm
    · constructor <;> (split <;> omega)
  · rw [hcd, hcm]; split <;> omega
  · rw [hcd, hcm]; split <;> omega
  · split <;> omega
  · split <;> omega
  · split <;> (split <;> omega)
  · rw [hcd, hcm]
    split <;> (split <;> (split <;> omega))
  · rw [hcd, hcm]
    split <;> (split <;> (split <;> omega))

theorem Inv_uniIter (g : MarsagliaUniRng) (h : ReachInv g) (n : Nat) : ReachInv (uniIter g n) := by
  induction n with
  | zero => exact h
  | succ n ih => exact (uni_step (uniIter g n) ih).1

/-! ## Seed decomposition and `rinit` -/

theorem decompose_bounds (s : Int) (h1 : 0 ≤ s) :
    2 ≤ (decompose s).1 ∧ (decompose s).1 ≤ 178 ∧
    2 ≤ (decompose s).2.1 ∧ (decompose s).2.1 ≤ 178 ∧
    1 ≤ (decompose s).2.2.1 ∧ (decompose s).2.2.1 ≤ 178 ∧
    0 ≤ (decompose s).2.2.2 ∧ (decompose s).2.2.2 ≤ 168 := by
  have hij : 0 ≤ Int.tdiv s 30082 := Int.tdiv_nonneg h1 (by norm_num)
  have hkl : 0 ≤ s - 30082 * Int.tdiv s 30082 := by
    rw [show s - 30082 * Int.tdiv s 30082 = Int.tmod s 30082 from (Int.tmod_def s 30082).symm]
    exact Int.tmod_nonneg 30082 h1
  simp only [decompose]
  have a1 : 0 ≤ Int.tmod (Int.tdiv (Int.tdiv s 30082) 177) 177 :=
    Int.tmod_nonneg 177 (Int.tdiv_nonneg hij (by norm_num))
  have a2 : Int.tmod (Int.tdiv (Int.tdiv s 30082) 177) 177 < 177 :=
    Int.tmod_lt_of_pos _ (by norm_num)
  have b1 : 0 ≤ Int.tmod (Int.tdiv s 30082) 177 := Int.tmod_nonneg 177 hij
  have b2 : Int.tmod (Int.tdiv s 30082) 177 < 177 := Int.tmod_lt_of_pos _ (by norm_num)
  have c1 : 0 ≤ Int.tmod (Int.tdiv (s - 30082 * Int.tdiv s 30082) 169) 178 :=
    Int.tmod_nonneg 178 (Int.tdiv_nonneg hkl (by norm_num))
  have c2 : Int.tmod (Int.tdiv (s - 30082 * Int.tdiv s 30082) 169) 178 < 178 :=
    Int.tmod_lt_of_pos _ (by norm_num)
  have d1 : 0 ≤ Int.tmod (s - 30082 * Int.tdiv s 30082) 169 := Int.tmod_nonneg 169 hkl
  have d2 : Int.tmod (s - 30082 * Int.tdiv s 30082) 169 < 169 :=
    Int.tmod_lt_of_pos _ (by norm_num)
  refine ⟨by omega, by omega, by omega, by omega, by omega, by omega, by omega, by omega⟩

theorem rinit_ok_of_range (g : MarsagliaUniRng) (s : Int) (h1 : 0 ≤ s) (h2 : s ≤ 900000000) :
    (g.rinit s).2 = none ∧ (g.rinit s).1 =
      g.rstart (decompose s).1 (decompose s).2.1 (decompose s).2.2.1 (decompose s).2.2.2 := by
  have hb := decompose_bounds s h1
  unfold MarsagliaUniRng.rinit
  rw [if_neg (by omega)]
  simp only
  rw [if_neg (by omega), if_neg (by omega), if_neg (by omega), if_neg (by omega),
    if_neg (by omega)]
  exact ⟨rfl, rfl⟩

theorem rinit_success_shape (g g2 : MarsagliaUniRng) (s : Int)
    (h : g.rinit s = (g2, none)) :
    0 ≤ s ∧ s ≤ 900000000 ∧
    g2 = g.rstart (decompose s).1 (decompose s).2.1 (decompose s).2.2.1 (decompose s).2.2.2 := by
  by_cases h0 : 0 ≤ s ∧ s ≤ 900000000
  · obtain ⟨hnone, hfst⟩ := rinit_ok_of_range g s h0.1 h0.2
    refine ⟨h0.1, h0.2, ?_⟩
    rw [← hfst, h]
  · exfalso
    unfold MarsagliaUniRng.rinit at h
    rw [if_pos (by omega)] at h
    simp at h

theorem new_buffer_len : MarsagliaUniRng.new.uni_u.length = LEN_U := by
  simp [MarsagliaUniRng.new]

theorem new_buffer_mem : ∀ x ∈ MarsagliaUniRng.new.uni_u, 0 ≤ x ∧ x < 16777216 := by
  intro x hx
  simp only [MarsagliaUniRng.new, List.mem_replicate] at hx
  omega

theorem rstart_ReachInv (g : MarsagliaUniRng) (i j k l : Int)
    (hlen : g.uni_u.length = LEN_U)
    (hmem : ∀ x ∈ g.uni_u, 0 ≤ x ∧ x < 16777216) :
    ReachInv (g.rstart i j k l) := by
  simp only [MarsagliaUniRng.rstart, ReachInv]
  refine ⟨?_, ?_, by norm_num, by norm_num, by trivial, by trivial, by norm_num, by norm_num,
    by norm_num⟩
  · rw [rstartLoop_length]
    exact hlen
  · exact rstartLoop_mem _ _ _ _ hmem

theorem rinit_new_ReachInv (s : Int) (g : MarsagliaUniRng)
    (h : MarsagliaUniRng.new.rinit s = (g, none)) : ReachInv g := by
  obtain ⟨-, -, rfl⟩ := rinit_success_shape _ _ _ h
  exact rstart_ReachInv _ _ _ _ _ new_buffer_len new_buffer_mem

/-! ## Slot 0 of the buffer -/

theorem uniIter_ui_slot0 (g : MarsagliaUniRng) (hui : g.uni_ui = 97) (n : Nat) (hn : n ≤ 97) :
    (uniIter g n).uni_ui = 97 - n ∧ (uniIter g n).uni_u[0]? = g.uni_u[0]? := by
  induction n with
  | zero => exact ⟨hui, rfl⟩
  | succ n ih =>
    obtain ⟨h1, h2⟩ := ih (by omega)
    constructor
    · show ((uniIter g n).uni).2.uni_ui = 97 - (n + 1)
      simp only [MarsagliaUniRng.uni]
      rw [h1, if_neg (by omega)]
      omega
    · show ((uniIter g n).uni).2.uni_u[0]? = g.uni_u[0]?
      simp only [MarsagliaUniRng.uni]
      rw [List.getElem?_set_ne (by omega), h2]

/-! ## Staged concrete evaluation -/

theorem rsChunk1 : rstartLoop 16 1 (2, 2, 2, 1) (List.replicate 98 0) = (rsBuf1, rsSt1) := by
  decide

theorem rsChunk2 : rstartLoop 16 17 rsSt1 rsBuf1 = (rsBuf2, rsSt2) := by
  decide

theorem rsChunk3 : rstartLoop 16 33 rsSt2 rsBuf2 = (rsBuf3, rsSt3) := by
  decide

theorem rsChunk4 : rstartLoop 16 49 rsSt3 rsBuf3 = (rsBuf4, rsSt4) := by
  decide

theorem rsChunk5 : rstartLoop 16 65 rsSt4 rsBuf4 = (rsBuf5, rsSt5) := by
  decide

theorem rsChunk6 : rstartLoop 16 81 rsSt5 rsBuf5 = (rsBuf6, rsSt6) := by
  decide

theorem rsChunk7 : rstartLoop 1 97 rsSt6 rsBuf6 = (g170Buf, rsSt7) := by
  decide

theorem rstart2221_buf :
    (rstartLoop 97 1 (2, 2, 2, 1) (List.replicate 98 0)).1 = g170Buf := by
  have h1 : rstartLoop 97 1 (2, 2, 2, 1) (List.replicate 98 0) =
      rstartLoop 81 17 rsSt1 rsBuf1 := by
    rw [show (97 : Nat) = 16 + 81 by norm_num, rstartLoop_add, rsChunk1]
  have h2 : rstartLoop 81 17 rsSt1 rsBuf1 = rstartLoop 65 33 rsSt2 rsBuf2 := by
    rw [show (81 : Nat) = 16 + 65 by norm_num, rstartLoop_add, rsChunk2]
  have h3 : rstartLoop 65 33 rsSt2 rsBuf2 = rstartLoop 49 49 rsSt3 rsBuf3 := by
    rw [show (65 : Nat) = 16 + 49 by norm_num, rstartLoop_add, rsChunk3]
  have h4 : rstartLoop 49 49 rsSt3 rsBuf3 = rstartLoop 33 65 rsSt4 rsBuf4 := by
    rw [show (49 : Nat) = 16 + 33 by norm_num, rstartLoop_add, rsChunk4]
  have h5 : rstartLoop 33 65 rsSt4 rsBuf4 = rstartLoop 17 81 rsSt5 rsBuf5 := by
    rw [show (33 : Nat) = 16 + 17 by norm_num, rstartLoop_add, rsChunk5]
  have h6 : rstartLoop 17 81 rsSt5 rsBuf5 = rstartLoop 1 97 rsSt6 rsBuf6 := by
    rw [show (17 : Nat) = 16 + 1 by norm_num, rstartLoop_add, rsChunk6]
  rw [h1, h2, h3, h4, h5, h6, rsChunk7]

theorem g170_eq : g170 = G170 := by
  have hsh := (rinit_ok_of_range MarsagliaUniRng.new 170 (by norm_num) (by norm_num)).2
  have hd1 : (decompose 170).1 = 2 := by decide
  have hd2 : (decompose 170).2.1 = 2 := by decide
  have hd3 : (decompose 170).2.2.1 = 2 := by decide
  have hd4 : (decompose 170).2.2.2 = 1 := by decide
  rw [show g170 = (MarsagliaUniRng.new.rinit 170).1 from rfl, hsh, hd1, hd2, hd3, hd4]
  simp only [MarsagliaUniRng.rstart, MarsagliaUniRng.new, G170, LEN_U,
    MarsagliaUniRng.mk.injEq]
  exact ⟨rstart2221_buf, by trivial, by trivial, by trivial, by trivial, by trivial⟩

theorem itChunk1 : uniIter G170 33 = itG1 := by
  decide

theorem itChunk2 : uniIter itG1 33 = itG2 := by
  decide

theorem itChunk3 : uniIter itG2 32 = itG3 := by
  decide

theorem uniIter98_eq : uniIter g170 98 = itG3 := by
  rw [g170_eq, show (98 : Nat) = 33 + (33 + 32) by norm_num, uniIter_add, itChunk1,
    uniIter_add, itChunk2, itChunk3]

/-! ## The claims -/

/-- C1: starting from a freshly constructed generator, `rinit 170` succeeds
and the first `uni` value is within `1e-6` of `0.68753344`.  The embedding
computes the `f32` value exactly as `numerator / 2 ^ 24`. -/
theorem claim1_known_value_seed_170 :
    (MarsagliaUniRng.new.rinit 170).2 = none ∧
    |(uniVal g170 0 : ℚ) / 2 ^ 24 - 68753344 / 100000000| < 1 / 1000000 := by
  refine ⟨by decide, ?_⟩
  rw [show uniVal g170 0 = 11534897 by rw [g170_eq]; decide]
  rw [abs_lt]
  norm_num

/-- C2: for every valid seed, after a successful `rinit` every `uni` value
lies in `[0, 1)` (numerator in `[0, 2^24)`) and every buffer slot stays in
that range after every operation. -/
theorem claim2_range_invariant (s : Int) (g : MarsagliaUniRng)
    (h : MarsagliaUniRng.new.rinit s = (g, none)) (n : Nat) :
    (0 ≤ uniVal g n ∧ uniVal g n < 16777216) ∧
    (0 ≤ (uniVal g n : ℚ) / 2 ^ 24 ∧ (uniVal g n : ℚ) / 2 ^ 24 < 1) ∧
    ∀ x ∈ (uniIter g n).uni_u, 0 ≤ x ∧ x < 16777216 := by
  have hI := Inv_uniIter g (rinit_new_ReachInv s g h) n
  have hs := uni_step (uniIter g n) hI
  have hv : uniVal g n = ((uniIter g n).uni).1 := rfl
  have h1 : 0 ≤ uniVal g n := by rw [hv]; exact hs.2.1
  have h2 : uniVal g n < 16777216 := by rw [hv]; exact hs.2.2
  refine ⟨⟨h1, h2⟩, ⟨?_, ?_⟩, hI.2.1⟩
  · exact div_nonneg (by exact_mod_cast h1) (by norm_num)
  · rw [div_lt_one (by norm_num)]
    exact_mod_cast h2

/-- C2 witness at seed 170 after one call. -/
theorem claim2_range_invariant_w :
    (0 ≤ uniVal g170 1 ∧ uniVal g170 1 < 16777216) ∧
    (0 ≤ (uniVal g170 1 : ℚ) / 2 ^ 24 ∧ (uniVal g170 1 : ℚ) / 2 ^ 24 < 1) ∧
    ∀ x ∈ (uniIter g170 1).uni_u, 0 ≤ x ∧ x < 16777216 :=
  claim2_range_invariant 170 g170 rfl 1

/-- C3: the whole output sequence is a function of the seed alone: two
fresh generators successfully initialised with the same seed agree on
every subsequent `uni` value. -/
theorem claim3_determinism (s : Int) (g1 g2 : MarsagliaUniRng)
    (h1 : MarsagliaUniRng.new.rinit s = (g1, none))
    (h2 : MarsagliaUniRng.new.rinit s = (g2, none)) (n : Nat) :
    uniVal g1 n = uniVal g2 n := by
  rw [h1] at h2
  cases h2
  rfl

/-- C3 witness at seed 170. -/
theorem claim3_determinism_w : uniVal g170 0 = uniVal g170 0 :=
  claim3_determinism 170 g170 g170 rfl rfl 0

/-- C4: `rinit` fails with the range error naming the seed exactly when the
seed is outside `[0, 900000000]`; the four boundary seeds behave as the
spec states. -/
theorem claim4_seed_validation :
    (∀ (g : MarsagliaUniRng) (s : Int),
      ((g.rinit s).2 = some ("rinit: ijkl = " ++ toString s ++ " -- out of range") ↔
        (s < 0 ∨ 900000000 < s))) ∧
    (MarsagliaUniRng.new.rinit (-1)).2 = some "rinit: ijkl = -1 -- out of range" ∧
    (MarsagliaUniRng.new.rinit 900000001).2 =
      some "rinit: ijkl = 900000001 -- out of range" ∧
    (MarsagliaUniRng.new.rinit 0).2 = none ∧
    (MarsagliaUniRng.new.rinit 900000000).2 = none := by
  refine ⟨?_, by decide, by decide, by decide, by decide⟩
  intro g s
  constructor
  · intro hmsg
    by_contra hcon
    obtain ⟨hnone, -⟩ := rinit_ok_of_range g s (by omega) (by omega)
    rw [hnone] at hmsg
    exact Option.noConfusion hmsg
  · intro hrange
    unfold MarsagliaUniRng.rinit
    rw [if_pos hrange]

/-- C5: after any successful `rinit` the two cursors are distinct, and stay
distinct after any number of `uni` calls. -/
theorem claim5_cursor_distinct (s : Int) (g : MarsagliaUniRng)
    (h : MarsagliaUniRng.new.rinit s = (g, none)) (n : Nat) :
    (uniIter g n).uni_ui ≠ (uniIter g n).uni_uj :=
  (Inv_uniIter g (rinit_new_ReachInv s g h) n).2.2.2.2.2.2.2.2

/-- C5 witness at seed 170 after three calls. -/
theorem claim5_cursor_distinct_w :
    (uniIter g170 3).uni_ui ≠ (uniIter g170 3).uni_uj :=
  claim5_cursor_distinct 170 g170 rfl 3

/-- C6: in every state reachable by `new`, a successful `rinit` and any
number of `uni` calls, both cursors lie in `[0, 97]`; hence the two buffer
reads and the buffer write performed by `uni` are within the bounds of the
98-element buffer. -/
theorem claim6_cursor_bounds (s : Int) (g : MarsagliaUniRng)
    (h : MarsagliaUniRng.new.rinit s = (g, none)) (n : Nat) :
    MarsagliaUniRng.new.uni_ui ≤ 97 ∧ MarsagliaUniRng.new.uni_uj ≤ 97 ∧
    (uniIter g n).uni_ui ≤ 97 ∧ (uniIter g n).uni_uj ≤ 97 ∧
    (uniIter g n).uni_u.length = LEN_U ∧
    (uniIter g n).uni_ui < (uniIter g n).uni_u.length ∧
    (uniIter g n).uni_uj < (uniIter g n).uni_u.length := by
  obtain ⟨hlen, -, -, -, -, -, hui, huj, -⟩ := Inv_uniIter g (rinit_new_ReachInv s g h) n
  refine ⟨by decide, by decide, hui, huj, hlen, ?_, ?_⟩ <;>
    · rw [hlen]
      simp only [LEN_U]
      omega

/-- C6 witness at seed 170 after zero calls. -/
theorem claim6_cursor_bounds_w :
    MarsagliaUniRng.new.uni_ui ≤ 97 ∧ MarsagliaUniRng.new.uni_uj ≤ 97 ∧
    (uniIter g170 0).uni_ui ≤ 97 ∧ (uniIter g170 0).uni_uj ≤ 97 ∧
    (uniIter g170 0).uni_u.length = LEN_U ∧
    (uniIter g170 0).uni_ui < (uniIter g170 0).uni_u.length ∧
    (uniIter g170 0).uni_uj < (uniIter g170 0).uni_u.length :=
  claim6_cursor_bounds 170 g170 rfl 0

/-- C7: a failed `rinit` leaves the generator exactly as it was: every
panic is signalled before any state mutation. -/
theorem claim7_failed_rinit_preserves_state (g g2 : MarsagliaUniRng) (s : Int) (e : String)
    (h : g.rinit s = (g2, some e)) : g2 = g := by
  unfold MarsagliaUniRng.rinit at h
  split at h
  · exact (congrArg Prod.fst h).symm
  · simp only at h
    split at h
    · exact (congrArg Prod.fst h).symm
    · split at h
      · exact (congrArg Prod.fst h).symm
      · split at h
        · exact (congrArg Prod.fst h).symm
        · split at h
          · exact (congrArg Prod.fst h).symm
          · split at h
            · exact (congrArg Prod.fst h).symm
            · exact absurd (congrArg Prod.snd h) (by simp)

/-- C7 witness: the failing call `rinit (-1)` on a fresh generator. -/
theorem claim7_failed_rinit_preserves_state_w :
    MarsagliaUniRng.new = MarsagliaUniRng.new :=
  claim7_failed_rinit_preserves_state MarsagliaUniRng.new MarsagliaUniRng.new (-1)
    "rinit: ijkl = -1 -- out of range" (by decide)

/-- C8 counterexample: with seed 170, after 98 `uni` calls buffer slot 0 is
no longer 0 — once the wrapping cursor reaches index 0, `uni` reads and
writes slot 0 like any other slot. -/
theorem claim8_cex_slot0_written :
    (MarsagliaUniRng.new.rinit 170).2 = none ∧
    (uniIter g170 98).uni_u.getD 0 0 ≠ 0 := by
  refine ⟨by decide, ?_⟩
  rw [uniIter98_eq]
  decide

/-- C8 amended: slot 0 holds 0 after a successful `rinit` (the seeding loop
fills only slots 1..97) and through the first 97 `uni` calls; from the 98th
call on the cursors wrap to index 0 and slot 0 becomes live state. -/
theorem claim8_amended_slot0_first_97 (s : Int) (g : MarsagliaUniRng)
    (h : MarsagliaUniRng.new.rinit s = (g, none)) (n : Nat) (hn : n ≤ 97) :
    (uniIter g n).uni_u.getD 0 0 = 0 := by
  obtain ⟨-, -, rfl⟩ := rinit_success_shape _ _ _ h
  have hslot : (MarsagliaUniRng.new.rstart (decompose s).1 (decompose s).2.1
      (decompose s).2.2.1 (decompose s).2.2.2).uni_u[0]? = some 0 := by
    simp only [MarsagliaUniRng.rstart, MarsagliaUniRng.new]
    rw [rstartLoop_get?_low _ _ _ _ _ (by norm_num)]
    simp [LEN_U]
  have hx := uniIter_ui_slot0 (MarsagliaUniRng.new.rstart (decompose s).1 (decompose s).2.1
    (decompose s).2.2.1 (decompose s).2.2.2) rfl n hn
  rw [List.getD_eq_getElem?_getD, hx.2, hslot]
  rfl

/-- C8 amended witness: seed 170 after 97 calls. -/
theorem claim8_amended_slot0_first_97_w : (uniIter g170 97).uni_u.getD 0 0 = 0 :=
  claim8_amended_slot0_first_97 170 g170 rfl 97 (by norm_num)

/-- C9 counterexample: calling `rstart` with identical arguments from two
different prior states (a fresh generator, and the seed-170 generator after
98 calls) yields different resulting states: `rstart` writes only slots
1..97, so buffer slot 0 is inherited from the prior state. -/
theorem claim9_cex_rstart_not_pure :
    MarsagliaUniRng.new.rstart 2 3 4 5 ≠ (uniIter g170 98).rstart 2 3 4 5 := by
  intro hcontra
  have h0 := congrArg (fun g : MarsagliaUniRng => g.uni_u[0]?) hcontra
  simp only [MarsagliaUniRng.rstart] at h0
  rw [rstartLoop_get?_low _ _ _ _ _ (by norm_num),
    rstartLoop_get?_low _ _ _ _ _ (by norm_num), uniIter98_eq] at h0
  revert h0
  decide

/-- C9 amended: for 98-slot buffers, the state produced by `rstart` is a
function of its four arguments and of buffer slot 0 of the prior state
(and of nothing else). -/
theorem claim9_amended_rstart_pure_mod_slot0 (g1 g2 : MarsagliaUniRng) (i j k l : Int)
    (hl1 : g1.uni_u.length = LEN_U) (hl2 : g2.uni_u.length = LEN_U)
    (h0 : g1.uni_u[0]? = g2.uni_u[0]?) :
    g1.rstart i j k l = g2.rstart i j k l := by
  have hcongr : rstartLoop 97 1 (i, j, k, l) g1.uni_u =
      rstartLoop 97 1 (i, j, k, l) g2.uni_u := by
    apply rstartLoop_congr
    · rw [hl1, hl2]
    · intro idx hidx
      rcases hidx with hlow | hhigh
      · have hz : idx = 0 := by omega
        subst hz
        exact h0
      · have e1 : g1.uni_u[idx]? = none :=
          List.getElem?_eq_none (by rw [hl1]; simp only [LEN_U]; omega)
        have e2 : g2.uni_u[idx]? = none :=
          List.getElem?_eq_none (by rw [hl2]; simp only [LEN_U]; omega)
        rw [e1, e2]
  simp only [MarsagliaUniRng.rstart, hcongr]

/-- C9 amended witness: two prior states differing in every scalar field
but sharing slot 0 give the same `rstart` result. -/
theorem claim9_amended_rstart_pure_mod_slot0_w :
    MarsagliaUniRng.new.rstart 2 3 4 5 =
      ({ uni_u := List.replicate 98 0
         uni_c := 5
         uni_cd := 6
         uni_cm := 7
         uni_ui := 8
         uni_uj := 9 } : MarsagliaUniRng).rstart 2 3 4 5 :=
  claim9_amended_rstart_pure_mod_slot0 _ _ 2 3 4 5 (by decide) (by decide) (by decide)

/-- C10: every seed in `[0, 900000000]` decomposes to `i` in `[2, 178]`,
`j` in `[2, 178]`, `k` in `[1, 178]`, `l` in `[0, 168]`, never the
forbidden triple `(1, 1, 1)`; hence every inner check of `rinit` is
unreachable and `rinit` succeeds on every in-range seed. -/
theorem claim10_decompose_in_range (s : Int) (h1 : 0 ≤ s) (h2 : s ≤ 900000000) :
    (2 ≤ (decompose s).1 ∧ (decompose s).1 ≤ 178) ∧
    (2 ≤ (decompose s).2.1 ∧ (decompose s).2.1 ≤ 178) ∧
    (1 ≤ (decompose s).2.2.1 ∧ (decompose s).2.2.1 ≤ 178) ∧
    (0 ≤ (decompose s).2.2.2 ∧ (decompose s).2.2.2 ≤ 168) ∧
    ¬((decompose s).1 = 1 ∧ (decompose s).2.1 = 1 ∧ (decompose s).2.2.1 = 1) ∧
    ∀ g : MarsagliaUniRng, (g.rinit s).2 = none := by
  have hb := decompose_bounds s h1
  refine ⟨⟨hb.1, hb.2.1⟩, ⟨hb.2.2.1, hb.2.2.2.1⟩, ⟨hb.2.2.2.2.1, hb.2.2.2.2.2.1⟩,
    ⟨hb.2.2.2.2.2.2.1, hb.2.2.2.2.2.2.2⟩, ?_, fun g => (rinit_ok_of_range g s h1 h2).1⟩
  rintro ⟨hi, -, -⟩
  have := hb.1
  omega

/-- C10 witness at seed 170. -/
theorem claim10_decompose_in_range_w :
    (2 ≤ (decompose 170).1 ∧ (decompose 170).1 ≤ 178) ∧
    (2 ≤ (decompose 170).2.1 ∧ (decompose 170).2.1 ≤ 178) ∧
    (1 ≤ (decompose 170).2.2.1 ∧ (decompose 170).2.2.1 ≤ 178) ∧
    (0 ≤ (decompose 170).2.2.2 ∧ (decompose 170).2.2.2 ≤ 168) ∧
    ¬((decompose 170).1 = 1 ∧ (decompose 170).2.1 = 1 ∧ (decompose 170).2.2.1 = 1) ∧
    ∀ g : MarsagliaUniRng, (g.rinit 170).2 = none :=
  claim10_decompose_in_range 170 (by norm_num) (by norm_num)
